import Mathlib

/-!
Shallow embedding of the rubipy connection component
(src/rubipy/network/connection.py together with src/rubipy/exceptions.py).

The Python module defines a single stateful class Connection with operations
connect, request, disconnect and a URL helper.  We embed it as a Lean
structure together with explicit state-passing operations.  Python floats
are modelled as rationals (the backoff and timeout arithmetic used by the
claims is exact), Python exceptions as an error inductive returned through
Except, and the httpx transport as an oracle mapping the attempt number to
the outcome of that attempt.  Logging is an external collaborator and is
not modelled.
-/

namespace Rubipy

/-- A minimal JSON value, used for the envelope field named data, which the
code passes through verbatim (response.json() produces it, request returns
data.get with key data). -/
inductive Json where
  | null
  | bool (b : Bool)
  | num (q : Rat)
  | str (s : String)
  | arr (elems : List Json)
  | obj (fields : List (String × Json))

/-- Errors the Python code can raise out of the Connection methods.
RubikaConnectionError and RubikaAPIError come from rubipy.exceptions; each
carries only a message.  attributeError models the AttributeError Python
raises when status.upper() is called on None; transportCloseError models an
exception escaping from the httpx aclose call inside disconnect. -/
inductive PyError where
  | connectionError (message : String)
  | apiError (message : String)
  | attributeError (message : String)
  | transportCloseError (message : String)
deriving DecidableEq, Repr

/-- The parsed JSON envelope of a response body: the fields the code reads
via data.get.  status is none when the key is absent or its value is null
(dict.get returns None in both cases); likewise dev_message and data. -/
structure Envelope where
  status : Option String
  dev_message : Option String
  data : Option Json

/-- Outcome of one HTTP attempt, as seen by the request loop after
self._client.request / raise_for_status / response.json():
statusError is an HTTPStatusError from raise_for_status (non-2xx),
transportError is any other HTTPError (DNS, reset, timeout),
invalidJson is a 2xx body that response.json() rejects (JSONDecodeError),
envelope is a 2xx body that parses to the given envelope. -/
inductive HttpResult where
  | statusError (code : Nat) (text : String)
  | transportError (message : String)
  | invalidJson (raw : String)
  | envelope (e : Envelope)

/-- Whether an attempt outcome is one the loop retries (the two except
branches of the for body: HTTPStatusError and HTTPError). -/
def HttpResult.retryable : HttpResult → Bool
  | .statusError _ _ => true
  | .transportError _ => true
  | .invalidJson _ => false
  | .envelope _ => false

/-- The Connection state: configuration fields stored by __init__ plus the
mutable pair _client (modelled as Option Unit: some iff the httpx client is
non-null) and _is_connected. -/
structure Connection where
  token : String
  base_url : String
  timeout : Rat
  max_retry : Int
  backoff_factor : Rat
  proxy : Option Unit
  client : Option Unit
  is_connected : Bool
deriving DecidableEq, Repr

/-- Class attribute Connection.TIMEOUT. -/
def TIMEOUT : Rat := 10

/-- Class attribute Connection.BASE_URL. -/
def BASE_URL : String := "https://botapi.rubika.ir/v3"

/-- Class attribute Connection.MAX_RETRY. -/
def MAX_RETRY : Int := 3

/-- Class attribute Connection.BACKOFF_FACTOR (0.5). -/
def BACKOFF_FACTOR : Rat := 1 / 2

/-- Message of the RubikaConnectionError raised by connect when already
connected. -/
def alreadyConnectedMsg : String := "Connection is Already connected"

/-- Message of the RubikaConnectionError raised by disconnect when not
connected. -/
def alreadyDisconnectedMsg : String := "Connection is already disconnected"

/-- Message of the RubikaConnectionError raised by request when _client is
None. -/
def notConnectedMsg : String :=
  "Connection is not connected, call \x27connect()\x27 first."

/-- Message of the AttributeError raised by None.upper(). -/
def noneUpperMsg : String :=
  "\x27NoneType\x27 object has no attribute \x27upper\x27"

/-- Message of the RubikaAPIError raised on a non-OK envelope status. -/
def appErrorMsg (endpoint status message : String) : String :=
  "[" ++ endpoint ++ "] API returned error status: " ++ status ++ " - "
    ++ message

/-- Message of the RubikaAPIError raised on a JSONDecodeError. -/
def malformedMsg (endpoint : String) : String :=
  "[" ++ endpoint ++ "] Could not parse JSON from response"

/-- Message of the RubikaAPIError raised after the retry budget is spent. -/
def exhaustedMsg (endpoint : String) (max_retry : Int) : String :=
  "[" ++ endpoint ++ "] Request failed after " ++ toString max_retry
    ++ " attempts."

/-- Python builtin max on two ints: the larger argument. -/
def pymaxInt (a b : Int) : Int := if a ≤ b then b else a

/-- Python builtin max on two floats: the larger argument. -/
def pymaxRat (a b : Rat) : Rat := if a ≤ b then b else a

/-- Python x or d for an optional string x: None and the empty string are
falsy, any other string is returned unchanged. -/
def pyOrStr (x : Option String) (d : String) : String :=
  match x with
  | none => d
  | some s => if s = "" then d else s

/-- Python x or d for an optional int x: None and 0 are falsy. -/
def pyOrInt (x : Option Int) (d : Int) : Int :=
  match x with
  | none => d
  | some v => if v = 0 then d else v

/-- Python x or d for an optional float x: None and 0.0 are falsy. -/
def pyOrRat (x : Option Rat) (d : Rat) : Rat :=
  match x with
  | none => d
  | some v => if v = 0 then d else v

/-- The timeout argument of __init__: either a plain number of seconds or
an already-built httpx Timeout object (modelled by its seconds). -/
inductive TimeoutArg where
  | seconds (q : Rat)
  | structured (t : Rat)

/-- timeout if isinstance(timeout, Timeout) else Timeout(timeout or TIMEOUT):
a structured Timeout is stored as-is, a numeric value goes through the
falsy-or default first. -/
def resolveTimeout (t : Option TimeoutArg) : Rat :=
  match t with
  | some (.structured v) => v
  | some (.seconds q) => if q = 0 then TIMEOUT else q
  | none => TIMEOUT

/-- Connection.__init__: stores the token, applies Python or-defaults to
base_url, timeout, max_try and backoff_factor, clamps max_retry to at
least 1 and backoff_factor to at least 0, and starts disconnected with no
client. -/
def Connection.init (token : String) (base_url : Option String)
    (timeout : Option TimeoutArg) (max_try : Option Int)
    (backoff_factor : Option Rat) (proxy : Option Unit) : Connection :=
  { token := token
    base_url := pyOrStr base_url BASE_URL
    timeout := resolveTimeout timeout
    max_retry := pymaxInt 1 (pyOrInt max_try MAX_RETRY)
    backoff_factor := pymaxRat 0 (pyOrRat backoff_factor BACKOFF_FACTOR)
    proxy := proxy
    client := none
    is_connected := false }

/-- Connection.connect: raises RubikaConnectionError when _is_connected is
already true, else allocates the client and sets the flag.  The new state
is returned alongside the Except result. -/
def Connection.connect (c : Connection) : Except PyError Unit × Connection :=
  if c.is_connected then
    (.error (.connectionError alreadyConnectedMsg), c)
  else
    (.ok (), { c with client := some (), is_connected := true })

/-- Connection.disconnect: raises RubikaConnectionError when not connected.
Otherwise the Python body first sets _is_connected = False, then awaits
self._client.aclose(), then sets _client = None.  closeOk says whether the
aclose call succeeds; when it raises, the exception propagates after the
flag was already cleared but before the client reference was cleared. -/
def Connection.disconnect (c : Connection) (closeOk : Bool) :
    Except PyError Unit × Connection :=
  if !c.is_connected then
    (.error (.connectionError alreadyDisconnectedMsg), c)
  else
    if closeOk then
      (.ok (), { c with is_connected := false, client := none })
    else
      (.error (.transportCloseError "transport close failed"),
        { c with is_connected := false })

/-- Connection._request_url: the base URL, token and endpoint joined
with slashes. -/
def Connection.request_url (c : Connection) (endpoint : String) : String :=
  c.base_url ++ "/" ++ c.token ++ "/" ++ endpoint

/-- The inner try block of the request loop on a parsed envelope:
status = data.get, then status.upper() compared to OK.  A missing or null
status raises AttributeError from None.upper(); a non-OK status raises
RubikaAPIError with endpoint, raw status and dev_message (default when
absent); an OK status returns data.get with default empty dict. -/
def handleEnvelope (endpoint : String) (e : Envelope) : Except PyError Json :=
  match e.status with
  | none => .error (.attributeError noneUpperMsg)
  | some status =>
      if status.toUpper ≠ "OK" then
        .error (.apiError
          (appErrorMsg endpoint status (e.dev_message.getD "Unknown error")))
      else
        .ok (e.data.getD (Json.obj []))

/-- The observable trace of one request call: its result, the number of
HTTP attempts actually issued, and the list of backoff sleeps performed,
in order. -/
structure ReqTrace where
  result : Except PyError Json
  attempts : Nat
  sleeps : List Rat

/-- The for attempt in range(1, max_retry + 1) loop of Connection.request.
fuel counts the remaining iterations; attempt is the 1-indexed loop
variable.  A retryable outcome falls through to the unconditional sleep of
backoff_factor * 2 ^ (attempt - 1) at the end of the loop body (the code
sleeps even after the last permitted attempt) and continues; running out
of iterations raises the retries-exhausted RubikaAPIError. -/
def Connection.requestGo (c : Connection) (endpoint : String)
    (transport : Nat → HttpResult) : Nat → Nat → ReqTrace
  | _, 0 =>
      ⟨.error (.apiError (exhaustedMsg endpoint c.max_retry)), 0, []⟩
  | attempt, fuel + 1 =>
      match transport attempt with
      | .invalidJson _ =>
          ⟨.error (.apiError (malformedMsg endpoint)), 1, []⟩
      | .envelope e => ⟨handleEnvelope endpoint e, 1, []⟩
      | .statusError _ _ =>
          let wait_for := c.backoff_factor * 2 ^ (attempt - 1)
          let rest := c.requestGo endpoint transport (attempt + 1) fuel
          ⟨rest.result, rest.attempts + 1, wait_for :: rest.sleeps⟩
      | .transportError _ =>
          let wait_for := c.backoff_factor * 2 ^ (attempt - 1)
          let rest := c.requestGo endpoint transport (attempt + 1) fuel
          ⟨rest.result, rest.attempts + 1, wait_for :: rest.sleeps⟩

/-- Connection.request: the guard if not self._client raises
RubikaConnectionError before any HTTP call; otherwise the retry loop runs
with max_retry iterations.  The method never assigns to self, so the
state component of the pair is the input state. -/
def Connection.request (c : Connection) (endpoint : String)
    (transport : Nat → HttpResult) : ReqTrace × Connection :=
  if c.client = none then
    (⟨.error (.connectionError notConnectedMsg), 0, []⟩, c)
  else
    (c.requestGo endpoint transport 1 c.max_retry.toNat, c)

/-- The state invariant from the spec: the connected flag is true exactly
when the transport handle is non-null. -/
def Connection.invariant (c : Connection) : Prop :=
  c.is_connected = true ↔ c.client ≠ none

/-- A default-configured connection on token T, as a concrete test state. -/
def connDefault : Connection :=
  Connection.init "T" none none none none none

/-- connDefault after a successful connect. -/
def connConnected : Connection :=
  (connDefault.connect).2

/-- Splitting off the first backoff delay of a run that starts at the given
1-indexed attempt: the remaining delays are the same schedule shifted by one
attempt. -/
theorem backoff_range_cons (bf : Rat) (attempt n : Nat) (h : 1 ≤ attempt) :
    (List.range (n + 1)).map (fun i => bf * 2 ^ (attempt - 1 + i)) =
      bf * 2 ^ (attempt - 1)
        :: (List.range n).map (fun i => bf * 2 ^ (attempt + i)) := by
  rw [List.range_succ_eq_map, List.map_cons, List.map_map]
  refine congrArg₂ List.cons (by rw [Nat.add_zero]) ?_
  refine List.map_congr_left fun i _ => ?_
  show bf * 2 ^ (attempt - 1 + (i + 1)) = bf * 2 ^ (attempt + i)
  rw [show attempt - 1 + (i + 1) = attempt + i from by omega]

/-- When the transport fails retryably on every attempt, the loop starting
at a given 1-indexed attempt with a given amount of fuel consumes all the
fuel, sleeps once per iteration (the code sleeps even on the last
iteration), and ends with the retries-exhausted RubikaAPIError. -/
theorem requestGo_retry_all (c : Connection) (endpoint : String)
    (transport : Nat → HttpResult)
    (hfail : ∀ k, (transport k).retryable = true) :
    ∀ (fuel attempt : Nat), 1 ≤ attempt →
      c.requestGo endpoint transport attempt fuel =
        ⟨.error (.apiError (exhaustedMsg endpoint c.max_retry)), fuel,
          (List.range fuel).map
            fun i => c.backoff_factor * 2 ^ (attempt - 1 + i)⟩ := by
  intro fuel
  induction fuel with
  | zero => intro attempt _; rfl
  | succ n ih =>
      intro attempt hatt
      have hk := hfail attempt
      have ih2 := ih (attempt + 1) (by omega)
      rw [backoff_range_cons c.backoff_factor attempt n hatt]
      cases htr : transport attempt with
      | invalidJson raw => rw [htr] at hk; simp [HttpResult.retryable] at hk
      | envelope e => rw [htr] at hk; simp [HttpResult.retryable] at hk
      | statusError code text =>
          simp only [Connection.requestGo, htr, ih2]
          rw [show attempt + 1 - 1 = attempt from by omega]
      | transportError msg =>
          simp only [Connection.requestGo, htr, ih2]
          rw [show attempt + 1 - 1 = attempt from by omega]

/-- Claim C1 (amended): on a connected Connection whose transport fails with
a transport-level or HTTP-status error on every attempt, request makes
exactly max_retry attempts and fails with the retries-exhausted
RubikaAPIError naming the endpoint and the attempt count, with the k-th
sleep (1-indexed) lasting backoff_factor * 2 ^ (k - 1) seconds; however it
performs exactly max_retry sleeps, one after every failed attempt including
the last permitted one, not max_retry - 1. -/
theorem request_retries_exhausted (c : Connection) (endpoint : String)
    (transport : Nat → HttpResult)
    (hconn : c.client ≠ none)
    (hfail : ∀ k, (transport k).retryable = true) :
    ((c.request endpoint transport).1).attempts = c.max_retry.toNat ∧
    ((c.request endpoint transport).1).sleeps =
      (List.range c.max_retry.toNat).map
        (fun i => c.backoff_factor * 2 ^ i) ∧
    ((c.request endpoint transport).1).result =
      .error (.apiError (exhaustedMsg endpoint c.max_retry)) := by
  have h0 : ¬ c.client = none := hconn
  simp only [Connection.request, if_neg h0]
  rw [requestGo_retry_all c endpoint transport hfail c.max_retry.toNat 1
    le_rfl]
  exact ⟨rfl, by simp, rfl⟩

/-- Claim C1 witness: the amended statement at a concrete connected
connection whose transport always fails. -/
theorem request_retries_exhausted_witness :
    (connConnected.client ≠ none ∧
      (∀ k : Nat, HttpResult.retryable
        ((fun (_ : Nat) => HttpResult.transportError "connection reset") k)
          = true)) ∧
    ((connConnected.request "sendText"
        (fun _ => HttpResult.transportError "connection reset")).1).attempts
        = connConnected.max_retry.toNat ∧
    ((connConnected.request "sendText"
        (fun _ => HttpResult.transportError "connection reset")).1).sleeps =
      (List.range connConnected.max_retry.toNat).map
        (fun i => connConnected.backoff_factor * 2 ^ i) ∧
    ((connConnected.request "sendText"
        (fun _ => HttpResult.transportError "connection reset")).1).result =
      .error (.apiError (exhaustedMsg "sendText" connConnected.max_retry)) :=
  ⟨⟨by decide, fun _ => rfl⟩,
    request_retries_exhausted connConnected "sendText"
      (fun _ => HttpResult.transportError "connection reset")
      (by decide) (fun _ => rfl)⟩

/-- Claim C1 counterexample: with the default max_retry of 3 and a
transport that fails every attempt, the code performs 3 backoff sleeps,
not the max_retry - 1 = 2 the claim states: it also sleeps after the last
permitted attempt. -/
theorem request_sleeps_after_last_attempt :
    connConnected.max_retry = 3 ∧
    List.length ((connConnected.request "sendText"
        (fun _ => HttpResult.transportError "connection reset")).1).sleeps
      = 3 ∧
    ¬ List.length ((connConnected.request "sendText"
        (fun _ => HttpResult.transportError "connection reset")).1).sleeps
      = 3 - 1 :=
  ⟨by decide, by decide, by decide⟩

/-- Claim C2: a response whose envelope has a status that does not compare
case-insensitively equal to OK makes request fail on that same first
attempt with the application-error RubikaAPIError carrying the endpoint,
the reported status and the dev_message (defaulting when absent), with no
retry and no backoff sleep. -/
theorem request_nonOk_immediate (c : Connection) (endpoint : String)
    (transport : Nat → HttpResult) (e : Envelope) (s : String)
    (hconn : c.client ≠ none) (hmr : 1 ≤ c.max_retry)
    (htr : transport 1 = .envelope e)
    (hs : e.status = some s) (hok : s.toUpper ≠ "OK") :
    (c.request endpoint transport).1 =
      ⟨.error (.apiError
          (appErrorMsg endpoint s (e.dev_message.getD "Unknown error"))),
        1, []⟩ := by
  have h0 : ¬ c.client = none := hconn
  obtain ⟨n, hn⟩ : ∃ n, c.max_retry.toNat = n + 1 :=
    ⟨c.max_retry.toNat - 1, by omega⟩
  simp only [Connection.request, if_neg h0, hn, Connection.requestGo, htr,
    handleEnvelope, hs, if_pos hok]

/-- Claim C2 witness: the statement at a concrete connected connection and
the envelope with status ERROR and dev_message bad token. -/
theorem request_nonOk_immediate_witness :
    (connConnected.client ≠ none ∧ (1 : Int) ≤ connConnected.max_retry ∧
      ("ERROR" : String).toUpper ≠ "OK") ∧
    (connConnected.request "sendText"
        (fun _ => HttpResult.envelope
          ⟨some "ERROR", some "bad token", none⟩)).1 =
      ⟨.error (.apiError (appErrorMsg "sendText" "ERROR" "bad token")),
        1, []⟩ :=
  ⟨⟨by decide, by decide, by with_unfolding_all decide⟩,
    request_nonOk_immediate connConnected "sendText"
      (fun _ => HttpResult.envelope ⟨some "ERROR", some "bad token", none⟩)
      ⟨some "ERROR", some "bad token", none⟩ "ERROR"
      (by decide) (by decide) rfl rfl (by with_unfolding_all decide)⟩

/-- Claim C3: a structurally successful response whose body is not valid
JSON makes request fail on that same first attempt with the
response-malformed RubikaAPIError, with no further attempt and no backoff
sleep, whatever the retry budget. -/
theorem request_invalidJson_immediate (c : Connection)
    (endpoint raw : String) (transport : Nat → HttpResult)
    (hconn : c.client ≠ none) (hmr : 1 ≤ c.max_retry)
    (htr : transport 1 = .invalidJson raw) :
    (c.request endpoint transport).1 =
      ⟨.error (.apiError (malformedMsg endpoint)), 1, []⟩ := by
  have h0 : ¬ c.client = none := hconn
  obtain ⟨n, hn⟩ : ∃ n, c.max_retry.toNat = n + 1 :=
    ⟨c.max_retry.toNat - 1, by omega⟩
  simp only [Connection.request, if_neg h0, hn, Connection.requestGo, htr]

/-- Claim C3 witness: the statement at a concrete connected connection with
a large retry budget and a non-JSON body. -/
theorem request_invalidJson_immediate_witness :
    (connConnected.client ≠ none ∧ (1 : Int) ≤ connConnected.max_retry) ∧
    (connConnected.request "sendText"
        (fun _ => HttpResult.invalidJson "<html>")).1 =
      ⟨.error (.apiError (malformedMsg "sendText")), 1, []⟩ :=
  ⟨⟨by decide, by decide⟩,
    request_invalidJson_immediate connConnected "sendText" "<html>"
      (fun _ => HttpResult.invalidJson "<html>")
      (by decide) (by decide) rfl⟩

/-- Claim C4: a response whose envelope status compares case-insensitively
equal to OK makes request succeed on that same first attempt, returning the
data field verbatim (the empty object when absent), with no further attempt
and no backoff sleep. -/
theorem request_ok_returns_data (c : Connection) (endpoint : String)
    (transport : Nat → HttpResult) (e : Envelope) (s : String)
    (hconn : c.client ≠ none) (hmr : 1 ≤ c.max_retry)
    (htr : transport 1 = .envelope e)
    (hs : e.status = some s) (hok : s.toUpper = "OK") :
    (c.request endpoint transport).1 =
      ⟨.ok (e.data.getD (Json.obj [])), 1, []⟩ := by
  have h0 : ¬ c.client = none := hconn
  obtain ⟨n, hn⟩ : ∃ n, c.max_retry.toNat = n + 1 :=
    ⟨c.max_retry.toNat - 1, by omega⟩
  have hok2 : ¬ s.toUpper ≠ "OK" := fun h => h hok
  simp only [Connection.request, if_neg h0, hn, Connection.requestGo, htr,
    handleEnvelope, hs, if_neg hok2]

/-- Claim C4 witness: the statement at a concrete connected connection with
the envelope whose status is the lowercase ok and whose data is the object
with field x mapped to 1. -/
theorem request_ok_returns_data_witness :
    (connConnected.client ≠ none ∧ (1 : Int) ≤ connConnected.max_retry ∧
      ("ok" : String).toUpper = "OK") ∧
    (connConnected.request "sendText"
        (fun _ => HttpResult.envelope
          ⟨some "ok", none, some (Json.obj [("x", Json.num 1)])⟩)).1 =
      ⟨.ok (Json.obj [("x", Json.num 1)]), 1, []⟩ :=
  ⟨⟨by decide, by decide, by with_unfolding_all decide⟩,
    request_ok_returns_data connConnected "sendText"
      (fun _ => HttpResult.envelope
        ⟨some "ok", none, some (Json.obj [("x", Json.num 1)])⟩)
      ⟨some "ok", none, some (Json.obj [("x", Json.num 1)])⟩ "ok"
      (by decide) (by decide) rfl rfl (by with_unfolding_all decide)⟩

/-- Claim C5: each lifecycle misuse fails immediately with
RubikaConnectionError and is never retried: connect while connected fails;
disconnect while not connected fails; request while not connected fails
with zero HTTP attempts and zero sleeps. -/
theorem lifecycle_misuse_immediate (c d : Connection) (endpoint : String)
    (transport : Nat → HttpResult) (closeOk : Bool)
    (hc : c.is_connected = true)
    (hd1 : d.is_connected = false) (hd2 : d.client = none) :
    (c.connect).1 = .error (.connectionError alreadyConnectedMsg) ∧
    (d.disconnect closeOk).1 =
      .error (.connectionError alreadyDisconnectedMsg) ∧
    (d.request endpoint transport).1 =
      ⟨.error (.connectionError notConnectedMsg), 0, []⟩ := by
  refine ⟨?_, ?_, ?_⟩
  · simp [Connection.connect, hc]
  · simp [Connection.disconnect, hd1]
  · simp [Connection.request, hd2]

/-- Claim C5 witness: the statement at a connected connection and at a
freshly constructed one. -/
theorem lifecycle_misuse_immediate_witness :
    (connConnected.is_connected = true ∧ connDefault.is_connected = false ∧
      connDefault.client = none) ∧
    (connConnected.connect).1 =
      .error (.connectionError alreadyConnectedMsg) ∧
    (connDefault.disconnect true).1 =
      .error (.connectionError alreadyDisconnectedMsg) ∧
    (connDefault.request "getMe"
        (fun _ => HttpResult.transportError "unreachable")).1 =
      ⟨.error (.connectionError notConnectedMsg), 0, []⟩ :=
  ⟨⟨by decide, by decide, by decide⟩,
    lifecycle_misuse_immediate connConnected connDefault "getMe"
      (fun _ => HttpResult.transportError "unreachable") true
      (by decide) (by decide) (by decide)⟩

/-- Claim C6 (amended): starting from a state satisfying the
connected-iff-client invariant, connect preserves the invariant and leaves
the state unchanged when it fails, request never changes the state,
disconnect leaves the state unchanged when its guard fails and preserves
the invariant when the close succeeds; but a disconnect whose transport
close fails clears the connected flag while keeping the client handle, so
it changes the state and breaks the invariant. -/
theorem state_transitions_preserve_invariant (c : Connection)
    (endpoint : String) (transport : Nat → HttpResult) (closeOk : Bool)
    (hinv : c.invariant) :
    ((c.connect).2).invariant ∧
    (c.is_connected = true → (c.connect).2 = c) ∧
    (c.request endpoint transport).2 = c ∧
    (c.is_connected = false → (c.disconnect closeOk).2 = c) ∧
    ((c.disconnect true).2).invariant ∧
    (c.is_connected = true →
      (c.disconnect false).2 = { c with is_connected := false }) := by
  unfold Connection.invariant at hinv ⊢
  refine ⟨?_, ?_, ?_, ?_, ?_, ?_⟩
  · unfold Connection.connect
    split
    · exact hinv
    · simp
  · intro h; simp [Connection.connect, h]
  · unfold Connection.request; split <;> rfl
  · intro h; simp [Connection.disconnect, h]
  · unfold Connection.disconnect
    split
    · exact hinv
    · simp
  · intro h; simp [Connection.disconnect, h]

/-- Claim C6 witness: the amended statement at a concrete connected
connection. -/
theorem state_transitions_preserve_invariant_witness :
    connConnected.invariant ∧
    (((connConnected.connect).2).invariant ∧
    (connConnected.is_connected = true →
      (connConnected.connect).2 = connConnected) ∧
    (connConnected.request "getMe"
        (fun _ => HttpResult.transportError "unreachable")).2 =
      connConnected ∧
    (connConnected.is_connected = false →
      (connConnected.disconnect true).2 = connConnected) ∧
    (((connConnected.disconnect true).2).invariant) ∧
    (connConnected.is_connected = true →
      (connConnected.disconnect false).2 =
        { connConnected with is_connected := false })) := by
  have hinv : connConnected.invariant := by
    unfold Connection.invariant; decide
  exact ⟨hinv, state_transitions_preserve_invariant connConnected "getMe"
    (fun _ => HttpResult.transportError "unreachable") true hinv⟩

/-- Claim C6 counterexample: a connected connection whose transport close
fails during disconnect ends with the connected flag cleared but the client
handle still present: the state changed and the invariant is broken, where
the claim says the state is exactly what it was before the call. -/
theorem disconnect_close_failure_corrupts_state :
    connConnected.invariant ∧
    connConnected.is_connected = true ∧
    ((connConnected.disconnect false).2).is_connected
      ≠ connConnected.is_connected ∧
    ((connConnected.disconnect false).2).client = some () ∧
    ¬ ((connConnected.disconnect false).2).invariant := by
  refine ⟨?_, by decide, by decide, by decide, ?_⟩
  · unfold Connection.invariant; decide
  · unfold Connection.invariant; decide

/-- Claim C7: every constructed Connection has max_retry at least 1 and
backoff_factor at least 0, whatever the inputs, and connect, disconnect and
request never change those two fields, so the bounds hold for the lifetime
of the object. -/
theorem init_clamps_retry_and_backoff (token : String)
    (base_url : Option String) (timeout : Option TimeoutArg)
    (max_try : Option Int) (backoff_factor : Option Rat)
    (proxy : Option Unit) :
    1 ≤ (Connection.init token base_url timeout max_try backoff_factor
          proxy).max_retry ∧
    0 ≤ (Connection.init token base_url timeout max_try backoff_factor
          proxy).backoff_factor ∧
    (∀ c : Connection, ((c.connect).2).max_retry = c.max_retry ∧
      ((c.connect).2).backoff_factor = c.backoff_factor) ∧
    (∀ (c : Connection) (b : Bool),
      ((c.disconnect b).2).max_retry = c.max_retry ∧
      ((c.disconnect b).2).backoff_factor = c.backoff_factor) ∧
    (∀ (c : Connection) (endpoint : String)
        (transport : Nat → HttpResult),
      ((c.request endpoint transport).2).max_retry = c.max_retry ∧
      ((c.request endpoint transport).2).backoff_factor
        = c.backoff_factor) := by
  refine ⟨?_, ?_, ?_, ?_, ?_⟩
  · show 1 ≤ pymaxInt 1 (pyOrInt max_try MAX_RETRY)
    unfold pymaxInt
    split <;> omega
  · show 0 ≤ pymaxRat 0 (pyOrRat backoff_factor BACKOFF_FACTOR)
    unfold pymaxRat
    split
    · assumption
    · exact le_refl 0
  · intro c
    constructor <;> (unfold Connection.connect; split <;> rfl)
  · intro c b
    constructor <;> (unfold Connection.disconnect; split <;> [rfl; split <;> rfl])
  · intro c endpoint transport
    constructor <;> (unfold Connection.request; split <;> rfl)

/-- Claim C8 (amended): a falsy numeric argument is replaced by the default
before clamping: max_try 0 yields max_retry 3, backoff_factor 0 yields
backoff_factor one half, timeout 0 yields the default 10 seconds; passing 0
for the backoff factor therefore never yields 0, but a negative backoff
factor clamps to exactly 0, so a backoff factor of 0 is still configurable
explicitly. -/
theorem falsy_args_use_defaults (token : String) (base_url : Option String)
    (timeout : Option TimeoutArg) (max_try : Option Int)
    (backoff_factor : Option Rat) (proxy : Option Unit) :
    (Connection.init token base_url timeout (some 0) backoff_factor
        proxy).max_retry = 3 ∧
    (Connection.init token base_url timeout max_try (some 0)
        proxy).backoff_factor = 1 / 2 ∧
    (Connection.init token base_url (some (TimeoutArg.seconds 0)) max_try
        backoff_factor proxy).timeout = 10 ∧
    ∀ b : Rat, b < 0 →
      (Connection.init token base_url timeout max_try (some b)
        proxy).backoff_factor = 0 := by
  refine ⟨?_, ?_, ?_, ?_⟩
  · show pymaxInt 1 (pyOrInt (some 0) MAX_RETRY) = 3
    norm_num [pymaxInt, pyOrInt, MAX_RETRY]
  · show pymaxRat 0 (pyOrRat (some 0) BACKOFF_FACTOR) = 1 / 2
    norm_num [pymaxRat, pyOrRat, BACKOFF_FACTOR]
  · show resolveTimeout (some (TimeoutArg.seconds 0)) = 10
    norm_num [resolveTimeout, TIMEOUT]
  · intro b hb
    show pymaxRat 0 (pyOrRat (some b) BACKOFF_FACTOR) = 0
    simp only [pymaxRat, pyOrRat]
    rw [if_neg hb.ne, if_neg (not_le.mpr hb)]

/-- Claim C8 witness: the amended statement at concrete inputs, including a
negative backoff factor yielding exactly 0. -/
theorem falsy_args_use_defaults_witness :
    ((-1 : Rat) < 0) ∧
    (Connection.init "T" none none (some 0) none none).max_retry = 3 ∧
    (Connection.init "T" none none none (some 0) none).backoff_factor
      = 1 / 2 ∧
    (Connection.init "T" none (some (TimeoutArg.seconds 0)) none none
        none).timeout = 10 ∧
    (Connection.init "T" none none none (some (-1)) none).backoff_factor
      = 0 :=
  ⟨by norm_num,
    (falsy_args_use_defaults "T" none none none none none).1,
    (falsy_args_use_defaults "T" none none none none none).2.1,
    (falsy_args_use_defaults "T" none none none none none).2.2.1,
    (falsy_args_use_defaults "T" none none none none none).2.2.2 (-1)
      (by norm_num)⟩

/-- Claim C8 counterexample: the claim says a backoff factor of exactly 0
can never be configured, but constructing with backoff_factor -1 (truthy,
then clamped by max with 0.0) yields exactly 0. -/
theorem negative_backoff_configures_zero :
    (Connection.init "T" none none none (some (-1)) none).backoff_factor
      = 0 := by
  with_unfolding_all decide

/-- Claim C9: on a connected Connection, a response that is valid JSON but
whose envelope has no status field makes request raise an AttributeError
from calling upper() on None: an error that is neither RubikaAPIError nor
RubikaConnectionError. -/
theorem missing_status_raises_attribute_error :
    ((connConnected.request "getMe"
        (fun _ => HttpResult.envelope ⟨none, none, none⟩)).1).result =
      .error (.attributeError noneUpperMsg) := rfl

/-- Claim C10: URL construction is the pure concatenation of the base URL,
the token and the endpoint with slash separators, with no validation; at
base https://x/v3, token T and endpoint e it yields https://x/v3/T/e. -/
theorem request_url_concat (c : Connection) (endpoint : String) :
    c.request_url endpoint
      = c.base_url ++ "/" ++ c.token ++ "/" ++ endpoint ∧
    (Connection.init "T" (some "https://x/v3") none none none
        none).request_url "e" = "https://x/v3/T/e" :=
  ⟨rfl, by decide⟩

end Rubipy
